import Mathlib

/-!
Shallow embedding of the Local-RAG adaptive answer-generation workflow.

The embedded code is `src/LocalRAG/RAG/workflow_graph.py` together with the
collaborators it drives: `Grader.py`, `Router.py`,
`Embeddings/embedding_interface.py` and `llm_agent.py`.  The language-model
calls, the vector store and the Tavily web-search client are external
services; one execution's worth of their responses is packaged in an
`Oracle`, over which every theorem quantifies.

Python integers are `Int`, `json.loads` results are `PyVal`, raised
exceptions are `Except PyErr`.  The langgraph state channels of `GraphState`
become a record with `Option` fields (a field is `none` while the channel has
never been written; reading it then is a `KeyError`), except `loop_step`,
which is declared `Annotated[int, operator.add]` in the source: that channel
starts at `int() = 0` and langgraph combines every value a node returns for
it with the current value using `operator.add`.
-/

namespace LocalRAG

/-- Parsed JSON values returned by `json.loads` on grader / router model
responses (`LLMAgent.run_query` with `json_mode=True`).  Only strings and
objects occur in the data contracts under study. -/
inductive PyVal where
  | str (s : String)
  | obj (fields : List (String × PyVal))

/-- Exceptions the embedded code can raise.  `invalidBranch` stands for the
error langgraph raises when a conditional edge returns a value that is not a
key of its path map (here: `route_question` falling off the end and returning
`None`). -/
inductive PyErr where
  | keyError
  | indexError
  | attributeError
  | typeError
  | invalidBranch
deriving Repr, DecidableEq

/-- Python `==` between a parsed JSON value and a string literal: strings
compare by value, a dict compared to a string is `False`. -/
def PyVal.eqStr : PyVal → String → Bool
  | .str s, t => s == t
  | .obj _, _ => false

/-- Python subscript `value[key]`: `KeyError` when the key is absent,
`TypeError` when the value is a string.  The responses under study have
distinct keys, so association-list lookup agrees with `dict` lookup. -/
def PyVal.subscript : PyVal → String → Except PyErr PyVal
  | .str _, _ => .error .typeError
  | .obj fields, k =>
    match fields.lookup k with
    | some v => .ok v
    | none => .error .keyError

/-- Python `str.lower`, as character-wise lowercasing of the string's
characters (`String.toLower` agrees on the ASCII grades under study, but its
position-based recursion does not evaluate inside the kernel). -/
def pyStrLower (s : String) : String :=
  ⟨s.data.map Char.toLower⟩

/-- Python `value.lower()`: `AttributeError` unless the value is a string. -/
def PyVal.lower : PyVal → Except PyErr String
  | .str s => .ok (pyStrLower s)
  | .obj _ => .error .attributeError

/-- `state["key"]` on a langgraph channel that may never have been written. -/
def stateGet {α : Type} (v : Option α) : Except PyErr α :=
  match v with
  | some a => .ok a
  | none => .error .keyError

/-- `langchain.schema.Document`: page content plus string-valued metadata. -/
structure Document where
  page_content : String
  metadata : List (String × String)
deriving Repr, DecidableEq

/-- `langchain_core.messages.AIMessage`, of which only `.content` is read. -/
structure AIMessage where
  content : String
deriving Repr, DecidableEq

/-- One Tavily result as consumed by `web_search`: a dict with keys
`"content"` and `"url"`. -/
structure WebResult where
  content : String
  url : String
deriving Repr, DecidableEq

/-- The `GraphState` TypedDict of `workflow_graph.py`.  `question` and
`max_retries` are supplied by `execute`; `generation`, `web_search` and
`documents` are unwritten (`none`) until a node first returns them;
`answers` is declared in the source but never written or read; `loop_step`
is the `operator.add`-reduced channel, initially `0`. -/
structure GraphState where
  question : String
  generation : Option AIMessage
  web_search : Option String
  max_retries : Int
  answers : Option Int
  documents : Option (List Document)
  loop_step : Int
deriving Repr, DecidableEq

/-- One execution's worth of external responses.  `routeResp q topics` is the
parsed JSON the router model returns; `retrievalResp q content` the relevance
grader's response for one document; `halluResp i facts answer` and
`answerResp i q answer` the groundedness / usefulness grader responses on the
`i`-th generation attempt; `ragAnswer i context q` the content of the
`AIMessage` produced by `run_rag_query_on_documents`; `retrieved q` the
vector-store hits; `webResults i q` the Tavily results of the `i`-th
web-search call. -/
structure Oracle where
  routeResp : String → String → PyVal
  retrievalResp : String → String → PyVal
  halluResp : Nat → String → String → PyVal
  answerResp : Nat → String → String → PyVal
  ragAnswer : Nat → String → String → String
  retrieved : String → List Document
  webResults : Nat → String → List WebResult

/-- `LLMAgent.concatenate_documents`: `"\n\n".join(doc.page_content ...)`. -/
def concatenate_documents (docs : List Document) : String :=
  String.intercalate "\n\n" (docs.map Document.page_content)

namespace EmbeddingInterface

/-- `EmbeddingInterface.get_store_topics`.  `contents` is the store's
`(source, topic)` listing; `topics = list(set(topic for ...))` (Python's set
iteration order is unspecified; it is empty or a singleton exactly when the
deduplicated list is, which is all the claims use).  With more than one topic
the source joins `topics[:-1]` with `", "` and appends `" and " + topics[-1]`;
otherwise it returns `topics[0]`, an out-of-bounds access when the store is
empty. -/
def get_store_topics (contents : List (String × String)) : Except PyErr String :=
  let topics := (contents.map Prod.snd).dedup
  if topics.length > 1 then
    .ok (String.intercalate ", " topics.dropLast ++ " and " ++ (topics.getLast?.getD ""))
  else
    match topics with
    | [] => .error .indexError
    | t :: _ => .ok t

end EmbeddingInterface

namespace WorkflowGraph

/-- The two recognized router verdicts, i.e. the keys of the conditional
entry point's path map in `construct_workflow`. -/
inductive RouteDest where
  | websearch
  | vectorstore
deriving Repr, DecidableEq

/-- The two labels `decide_to_generate` can return, i.e. the keys of the
`grade_documents` conditional edge's path map. -/
inductive DocsVerdict where
  | websearch
  | generate
deriving Repr, DecidableEq

/-- The four labels `grade_generation_v_documents_and_question` can return,
i.e. the keys of the `generate` conditional edge's path map. -/
inductive GenVerdict where
  | notSupported
  | useful
  | notUseful
  | maxRetries
deriving Repr, DecidableEq

/-- Node `retrieve`: overwrite `documents` with the vector-store hits. -/
def retrieve (o : Oracle) (s : GraphState) : GraphState :=
  { s with documents := some (o.retrieved s.question) }

/-- Node `generate` on attempt `gens`: reads `state["documents"]`, produces a
generation, and returns `{"generation": ..., "loop_step": loop_step + 1}`.
Because the `loop_step` channel carries the `operator.add` reducer, the
returned value is added to the channel's current value. -/
def generate (o : Oracle) (gens : Nat) (s : GraphState) : Except PyErr GraphState := do
  let documents ← stateGet s.documents
  let loop_step := s.loop_step
  let generation := AIMessage.mk (o.ragAnswer gens (concatenate_documents documents) s.question)
  .ok { s with
        generation := some generation,
        loop_step := s.loop_step + (loop_step + 1) }

/-- The per-document loop of `grade_documents`: grade each document with the
retrieval grader (`response["binary_score"].lower() == "yes"`), keep the
relevant ones in order, and report the final `web_search` flag, which starts
`"No"` and is set to `"Yes"` on any rejection. -/
def gradeLoop (o : Oracle) (question : String) :
    List Document → Except PyErr (List Document × String)
  | [] => .ok ([], "No")
  | d :: ds => do
    let grade ← (o.retrievalResp question d.page_content).subscript "binary_score"
    let gradeLower ← grade.lower
    let (rest, flag) ← gradeLoop o question ds
    if gradeLower == "yes" then
      .ok (d :: rest, flag)
    else
      .ok (rest, "Yes")

/-- Node `grade_documents`: filter `state["documents"]` through the retrieval
grader and record the `web_search` flag. -/
def grade_documents (o : Oracle) (s : GraphState) : Except PyErr GraphState := do
  let documents ← stateGet s.documents
  let (filtered_docs, web_search) ← gradeLoop o s.question documents
  .ok { s with documents := some filtered_docs, web_search := some web_search }

/-- Node `web_search` on its `webs`-th invocation.  `toolAssigned` records
whether `__init__` assigned `self.web_search_tool` (it does so only when
`TAVILY_API_KEY` is set; the class-level annotation alone creates no
attribute, so evaluating `if self.web_search_tool:` without the key raises
`AttributeError`).  When the tool exists, each Tavily result is appended to
`state.get("documents", [])` as a `Document` with metadata
`source`/`title`/`origin`, the origin being the literal `"web search"`. -/
def web_search (toolAssigned : Bool) (o : Oracle) (webs : Nat) (s : GraphState) :
    Except PyErr GraphState := do
  let documents := s.documents.getD []
  if toolAssigned then
    let docs := o.webResults webs s.question
    let webDocs := docs.map (fun w =>
      Document.mk w.content [("source", w.url), ("title", w.url), ("origin", "web search")])
    .ok { s with documents := some (documents ++ webDocs) }
  else
    .error .attributeError

/-- Conditional entry point `route_question`: recompute the topic summary
from the store's live listing, ask the router, and compare
`response["datasource"]` against the two recognized verdicts.  The Python
function has no final `else`, so an unrecognized verdict falls off the end
and returns `None`. -/
def route_question (o : Oracle) (storeContents : List (String × String)) (s : GraphState) :
    Except PyErr (Option RouteDest) := do
  let topics ← EmbeddingInterface.get_store_topics storeContents
  let source ← (o.routeResp s.question topics).subscript "datasource"
  if source.eqStr "websearch" then
    .ok (some .websearch)
  else if source.eqStr "vectorstore" then
    .ok (some .vectorstore)
  else
    .ok none

/-- Conditional edge `decide_to_generate`: read `state["web_search"]` and
branch on it being the string `"Yes"`. -/
def decide_to_generate (s : GraphState) : Except PyErr DocsVerdict := do
  let web_search ← stateGet s.web_search
  if web_search == "Yes" then
    .ok .websearch
  else
    .ok .generate

/-- Conditional edge `grade_generation_v_documents_and_question` after
attempt `gens`.  The hallucination grader's result is the parsed JSON object
itself and the source compares it directly with `"yes"` (`grade == "yes"`,
without extracting `"binary_score"`); the usefulness branch does extract
`grade["binary_score"]`.  `max_retries` is read with default 3 but `execute`
always supplies it. -/
def grade_generation_v_documents_and_question (o : Oracle) (gens : Nat) (s : GraphState) :
    Except PyErr GenVerdict := do
  let documents ← stateGet s.documents
  let generation ← stateGet s.generation
  let max_retries := s.max_retries
  let documents_as_text := concatenate_documents documents
  let grade := o.halluResp gens documents_as_text generation.content
  if grade.eqStr "yes" then
    let useGrade ← (o.answerResp gens s.question generation.content).subscript "binary_score"
    if useGrade.eqStr "yes" then
      .ok .useful
    else if s.loop_step ≤ max_retries then
      .ok .notUseful
    else
      .ok .maxRetries
  else if s.loop_step ≤ max_retries then
    .ok .notSupported
  else
    .ok .maxRetries

end WorkflowGraph

/-- Deployment facts fixed for one run: whether `__init__` assigned the
Tavily tool, and the vector store's `(source, topic)` content listing. -/
structure Env where
  toolAssigned : Bool
  storeContents : List (String × String)
deriving Repr, DecidableEq

/-- The nodes of the compiled graph, plus the entry pseudo-node that runs
`route_question`. -/
inductive Node where
  | entry
  | websearch
  | retrieve
  | gradeDocs
  | generate
deriving Repr, DecidableEq

/-- A machine configuration: current node, channel state, and ghost counters
of completed `generate` and `websearch` invocations (used only to index the
oracle and to state attempt bounds). -/
structure Config where
  node : Node
  s : GraphState
  gens : Nat
  webs : Nat
deriving Repr, DecidableEq

/-- Result of one super-step: either the follow-up configuration or `END`
(reached from `generate` on `"useful"` / `"max retries"`), carrying the final
state and the number of generation attempts. -/
inductive StepRes where
  | next (c : Config)
  | done (s : GraphState) (gens : Nat)
deriving Repr, DecidableEq

/-- One super-step of the compiled graph: run the current node on the state,
then the conditional edge registered in `construct_workflow` on the updated
state. -/
def step (env : Env) (o : Oracle) (c : Config) : Except PyErr StepRes :=
  match c.node with
  | .entry =>
    match WorkflowGraph.route_question o env.storeContents c.s with
    | .error e => .error e
    | .ok (some .websearch) => .ok (.next { c with node := .websearch })
    | .ok (some .vectorstore) => .ok (.next { c with node := .retrieve })
    | .ok none => .error .invalidBranch
  | .websearch =>
    match WorkflowGraph.web_search env.toolAssigned o c.webs c.s with
    | .error e => .error e
    | .ok s' => .ok (.next { c with node := .generate, s := s', webs := c.webs + 1 })
  | .retrieve =>
    .ok (.next { c with node := .gradeDocs, s := WorkflowGraph.retrieve o c.s })
  | .gradeDocs =>
    match WorkflowGraph.grade_documents o c.s with
    | .error e => .error e
    | .ok s' =>
      match WorkflowGraph.decide_to_generate s' with
      | .error e => .error e
      | .ok .websearch => .ok (.next { c with node := .websearch, s := s' })
      | .ok .generate => .ok (.next { c with node := .generate, s := s' })
  | .generate =>
    match WorkflowGraph.generate o c.gens c.s with
    | .error e => .error e
    | .ok s' =>
      match WorkflowGraph.grade_generation_v_documents_and_question o c.gens s' with
      | .error e => .error e
      | .ok .notSupported => .ok (.next ⟨.generate, s', c.gens + 1, c.webs⟩)
      | .ok .useful => .ok (.done s' (c.gens + 1))
      | .ok .notUseful => .ok (.next ⟨.websearch, s', c.gens + 1, c.webs⟩)
      | .ok .maxRetries => .ok (.done s' (c.gens + 1))

/-- Outcome of running the machine with fuel: `finished` is `END`; `fuelOut`
means the fuel budget was exhausted before `END`. -/
inductive RunRes where
  | finished (s : GraphState) (gens : Nat)
  | fuelOut (c : Config)
deriving Repr, DecidableEq

/-- Run the compiled graph for at most `fuel` super-steps. -/
def run (env : Env) (o : Oracle) : Nat → Config → Except PyErr RunRes
  | 0, c => .ok (.fuelOut c)
  | fuel + 1, c =>
    match step env o c with
    | .error e => .error e
    | .ok (.next c') => run env o fuel c'
    | .ok (.done s gens) => .ok (.finished s gens)

/-- The initial configuration `execute(question, max_retries)` streams from:
inputs set only `question` and `max_retries`; the `loop_step` channel starts
at `0`. -/
def initConfig (question : String) (max_retries : Int) : Config :=
  { node := .entry,
    s := { question := question,
           generation := none,
           web_search := none,
           max_retries := max_retries,
           answers := none,
           documents := none,
           loop_step := 0 },
    gens := 0,
    webs := 0 }

/-- Termination weight of a node: every edge of the compiled graph either
strictly lowers the weight or passes through `generate`, which strictly
raises `loop_step`. -/
def nodeWeight : Node → Nat
  | .entry => 5
  | .retrieve => 4
  | .gradeDocs => 3
  | .websearch => 2
  | .generate => 1

/-- Ranking function for the retry loops: distance from the retry budget,
weighted so that one super-step always decreases it. -/
def fuelMeasure (c : Config) : Nat :=
  2 * (c.s.max_retries + 1 - c.s.loop_step).toNat + nodeWeight c.node

/-- The relevance grade as the source consumes it:
`response["binary_score"].lower()`. -/
def relevance_grade (o : Oracle) (q : String) (d : Document) : Except PyErr String := do
  let grade ← (o.retrievalResp q d.page_content).subscript "binary_score"
  grade.lower

/-- The relevance test `response["binary_score"].lower() == "yes"` as a total
boolean (an erroring grade counts as not accepted; the characterization
lemmas only apply it under a no-error hypothesis). -/
def acceptsDoc (o : Oracle) (q : String) (d : Document) : Bool :=
  match relevance_grade o q d with
  | .ok g => g == "yes"
  | .error _ => false

/-- The `Document` the web-search node builds from one Tavily result. -/
def webDocOf (wr : WebResult) : Document :=
  ⟨wr.content, [("source", wr.url), ("title", wr.url), ("origin", "web search")]⟩

/-- The state the web-search node returns when the Tavily tool is
configured: the accumulated documents followed by the normalized web
documents. -/
def webSearchResult (o : Oracle) (w : Nat) (s : GraphState) : GraphState :=
  { s with documents := some (s.documents.getD [] ++ (o.webResults w s.question).map webDocOf) }

/-- A contract-conforming oracle for concrete evaluations: the router picks
the vector store, all graders answer `binary_score = "yes"`, the vector store
returns no hits, the web search returns one snippet. -/
def oracleA : Oracle where
  routeResp := fun _ _ => .obj [("datasource", .str "vectorstore")]
  retrievalResp := fun _ _ => .obj [("binary_score", .str "yes")]
  halluResp := fun _ _ _ => .obj [("binary_score", .str "yes"), ("explanation", .str "grounded")]
  answerResp := fun _ _ _ => .obj [("binary_score", .str "yes"), ("explanation", .str "useful")]
  ragAnswer := fun _ _ _ => "an answer"
  retrieved := fun _ => []
  webResults := fun _ _ => [⟨"web content", "u"⟩]

/-- `oracleA` with the router returning a verdict outside
`{"websearch", "vectorstore"}`. -/
def oracleBadRoute : Oracle :=
  { oracleA with routeResp := fun _ _ => .obj [("datasource", .str "database")] }

/-- `oracleA` with the relevance grader returning a score outside
`{"yes", "no"}`. -/
def oracleMaybe : Oracle :=
  { oracleA with retrievalResp := fun _ _ => .obj [("binary_score", .str "maybe")] }

/-- `oracleA` with the router sending the question to web search. -/
def oracleWeb : Oracle :=
  { oracleA with routeResp := fun _ _ => .obj [("datasource", .str "websearch")] }

/-- A deployment with the Tavily tool configured and one stored document. -/
def envA : Env := ⟨true, [("src", "topicA")]⟩

/-- A mid-workflow state used for concrete node evaluations. -/
def stateA : GraphState :=
  { question := "q", generation := none, web_search := none, max_retries := 3,
    answers := none, documents := some [], loop_step := 0 }

/-- `stateA` after one `generate` attempt by `oracleA`. -/
def stateA' : GraphState :=
  { question := "q", generation := some ⟨"an answer"⟩, web_search := none, max_retries := 3,
    answers := none, documents := some [], loop_step := 1 }

/-- A state in the `GENERATE` node with a pending generation, one retry
used, and retry budget 3. -/
def genStateC3 : GraphState :=
  { question := "q", generation := some ⟨"a"⟩, web_search := none, max_retries := 3,
    answers := none, documents := some [], loop_step := 1 }

/-- A document used in the relevance-grading evaluations. -/
def docA : Document := ⟨"content a", []⟩

/-- Final channel state of the concrete run of `envA` / `oracleA` with
`max_retries = 1`, which performs exactly two generation attempts. -/
def twoAttemptFinal : GraphState :=
  { question := "q", generation := some ⟨"an answer"⟩, web_search := some "No", max_retries := 1,
    answers := none, documents := some [], loop_step := 3 }

/-- Final channel state of the concrete run of `oracleWeb` with
`max_retries = 0`, whose only document came from the web search. -/
def webRunFinal : GraphState :=
  { question := "q", generation := some ⟨"an answer"⟩, web_search := none, max_retries := 0,
    answers := none,
    documents := some [⟨"web content", [("source", "u"), ("title", "u"), ("origin", "web search")]⟩],
    loop_step := 1 }

@[simp]
theorem except_bind_ok {ε α β : Type} (a : α) (f : α → Except ε β) :
    (Except.ok a >>= f : Except ε β) = f a := rfl

@[simp]
theorem except_bind_error {ε α β : Type} (e : ε) (f : α → Except ε β) :
    (Except.error e >>= f : Except ε β) = .error e := rfl

theorem generate_ok {o : Oracle} {gens : Nat} {s s' : GraphState}
    (h : WorkflowGraph.generate o gens s = .ok s') :
    s'.loop_step = 2 * s.loop_step + 1 ∧ s'.max_retries = s.max_retries ∧
    s'.question = s.question ∧ s'.documents = s.documents := by
  cases hd : s.documents with
  | none => simp [WorkflowGraph.generate, stateGet, hd] at h
  | some docs =>
    simp [WorkflowGraph.generate, stateGet, hd] at h
    subst h
    refine ⟨?_, rfl, rfl, rfl⟩
    show s.loop_step + (s.loop_step + 1) = 2 * s.loop_step + 1
    omega

theorem grade_documents_ok {o : Oracle} {s s' : GraphState}
    (h : WorkflowGraph.grade_documents o s = .ok s') :
    s'.loop_step = s.loop_step ∧ s'.max_retries = s.max_retries ∧
    s'.question = s.question := by
  cases hd : s.documents with
  | none => simp [WorkflowGraph.grade_documents, stateGet, hd] at h
  | some docs =>
    cases hg : WorkflowGraph.gradeLoop o s.question docs with
    | error e => simp [WorkflowGraph.grade_documents, stateGet, hd, hg] at h
    | ok p =>
      simp [WorkflowGraph.grade_documents, stateGet, hd, hg] at h
      subst h
      exact ⟨rfl, rfl, rfl⟩

theorem web_search_ok {toolAssigned : Bool} {o : Oracle} {webs : Nat} {s s' : GraphState}
    (h : WorkflowGraph.web_search toolAssigned o webs s = .ok s') :
    s'.loop_step = s.loop_step ∧ s'.max_retries = s.max_retries ∧
    s'.question = s.question := by
  cases toolAssigned with
  | false => simp [WorkflowGraph.web_search] at h
  | true =>
    simp [WorkflowGraph.web_search] at h
    subst h
    exact ⟨rfl, rfl, rfl⟩

theorem retrieve_fields (o : Oracle) (s : GraphState) :
    (WorkflowGraph.retrieve o s).loop_step = s.loop_step ∧
    (WorkflowGraph.retrieve o s).max_retries = s.max_retries ∧
    (WorkflowGraph.retrieve o s).question = s.question :=
  ⟨rfl, rfl, rfl⟩

/-- The two retrying verdicts are issued only under the guard
`state["loop_step"] <= max_retries`. -/
theorem grade_generation_retry_guard {o : Oracle} {gens : Nat} {s : GraphState}
    {v : WorkflowGraph.GenVerdict}
    (h : WorkflowGraph.grade_generation_v_documents_and_question o gens s = .ok v)
    (hv : v = .notSupported ∨ v = .notUseful) :
    s.loop_step ≤ s.max_retries := by
  cases hd : s.documents with
  | none => simp [WorkflowGraph.grade_generation_v_documents_and_question, stateGet, hd] at h
  | some docs =>
    cases hgen : s.generation with
    | none =>
      simp [WorkflowGraph.grade_generation_v_documents_and_question, stateGet, hd, hgen] at h
    | some gmsg =>
      simp only [WorkflowGraph.grade_generation_v_documents_and_question, stateGet, hd, hgen,
        except_bind_ok] at h
      cases hh : (o.halluResp gens (concatenate_documents docs) gmsg.content).eqStr "yes" with
      | false =>
        simp only [hh, Bool.false_eq_true, if_false] at h
        by_cases hl : s.loop_step ≤ s.max_retries
        · exact hl
        · rw [if_neg hl] at h
          rcases hv with rfl | rfl <;> simp at h
      | true =>
        simp only [hh, if_true] at h
        cases hsub : (o.answerResp gens s.question gmsg.content).subscript "binary_score" with
        | error e => rw [hsub] at h; simp at h
        | ok g2 =>
          rw [hsub] at h
          simp only [except_bind_ok] at h
          cases hg2 : g2.eqStr "yes" with
          | true => simp only [hg2, if_true] at h; rcases hv with rfl | rfl <;> simp at h
          | false =>
            simp only [hg2, Bool.false_eq_true, if_false] at h
            by_cases hl : s.loop_step ≤ s.max_retries
            · exact hl
            · rw [if_neg hl] at h
              rcases hv with rfl | rfl <;> simp at h

/-- Inversion of a non-final super-step: the retry budget is never written,
and every transition either keeps `loop_step` and the attempt counter while
strictly lowering the node weight, or is a `generate` transition, which
doubles-plus-one `loop_step` under the retry guard. -/
theorem step_next_spec {env : Env} {o : Oracle} {c c' : Config}
    (h : step env o c = .ok (.next c')) :
    c'.s.max_retries = c.s.max_retries ∧
    ((c'.s.loop_step = c.s.loop_step ∧ c'.gens = c.gens ∧
      nodeWeight c'.node < nodeWeight c.node) ∨
     (c.node = .generate ∧ c'.s.loop_step = 2 * c.s.loop_step + 1 ∧
      c'.gens = c.gens + 1 ∧ c'.s.loop_step ≤ c'.s.max_retries ∧
      nodeWeight c'.node ≤ 2)) := by
  obtain ⟨node, s, gens, webs⟩ := c
  cases node with
  | entry =>
    cases hr : WorkflowGraph.route_question o env.storeContents s with
    | error e => simp [step, hr] at h
    | ok r =>
      cases r with
      | none => simp [step, hr] at h
      | some d =>
        cases d with
        | websearch =>
          simp only [step, hr] at h
          cases h
          exact ⟨rfl, .inl ⟨rfl, rfl, by simp [nodeWeight]⟩⟩
        | vectorstore =>
          simp only [step, hr] at h
          cases h
          exact ⟨rfl, .inl ⟨rfl, rfl, by simp [nodeWeight]⟩⟩
  | websearch =>
    cases hw : WorkflowGraph.web_search env.toolAssigned o webs s with
    | error e => simp [step, hw] at h
    | ok s' =>
      simp only [step, hw] at h
      cases h
      obtain ⟨h1, h2, _⟩ := web_search_ok hw
      exact ⟨h2, .inl ⟨h1, rfl, by simp [nodeWeight]⟩⟩
  | retrieve =>
    simp only [step] at h
    cases h
    exact ⟨rfl, .inl ⟨rfl, rfl, by simp [nodeWeight]⟩⟩
  | gradeDocs =>
    cases hg : WorkflowGraph.grade_documents o s with
    | error e => simp [step, hg] at h
    | ok s' =>
      cases hdec : WorkflowGraph.decide_to_generate s' with
      | error e => simp [step, hg, hdec] at h
      | ok d =>
        obtain ⟨h1, h2, _⟩ := grade_documents_ok hg
        cases d with
        | websearch =>
          simp only [step, hg, hdec] at h
          cases h
          exact ⟨h2, .inl ⟨h1, rfl, by simp [nodeWeight]⟩⟩
        | generate =>
          simp only [step, hg, hdec] at h
          cases h
          exact ⟨h2, .inl ⟨h1, rfl, by simp [nodeWeight]⟩⟩
  | generate =>
    cases hg : WorkflowGraph.generate o gens s with
    | error e => simp [step, hg] at h
    | ok s' =>
      cases hv : WorkflowGraph.grade_generation_v_documents_and_question o gens s' with
      | error e => simp [step, hg, hv] at h
      | ok v =>
        obtain ⟨h1, h2, _, _⟩ := generate_ok hg
        cases v with
        | notSupported =>
          simp only [step, hg, hv] at h
          cases h
          have hguard := grade_generation_retry_guard hv (.inl rfl)
          exact ⟨h2, .inr ⟨rfl, h1, rfl, by exact hguard, by simp [nodeWeight]⟩⟩
        | useful => simp [step, hg, hv] at h
        | notUseful =>
          simp only [step, hg, hv] at h
          cases h
          have hguard := grade_generation_retry_guard hv (.inr rfl)
          exact ⟨h2, .inr ⟨rfl, h1, rfl, by exact hguard, by simp [nodeWeight]⟩⟩
        | maxRetries => simp [step, hg, hv] at h

/-- Inversion of a final super-step: `END` is reached only from `generate`,
with the attempt counter incremented once and `loop_step` updated by that
final attempt. -/
theorem step_done_spec {env : Env} {o : Oracle} {c : Config} {s : GraphState} {g : Nat}
    (h : step env o c = .ok (.done s g)) :
    g = c.gens + 1 ∧ s.loop_step = 2 * c.s.loop_step + 1 ∧
    s.max_retries = c.s.max_retries := by
  obtain ⟨node, st, gens, webs⟩ := c
  cases node with
  | entry =>
    cases hr : WorkflowGraph.route_question o env.storeContents st with
    | error e => simp [step, hr] at h
    | ok r =>
      cases r with
      | none => simp [step, hr] at h
      | some d => cases d <;> simp [step, hr] at h
  | websearch =>
    cases hw : WorkflowGraph.web_search env.toolAssigned o webs st with
    | error e => simp [step, hw] at h
    | ok s' => simp [step, hw] at h
  | retrieve => simp [step] at h
  | gradeDocs =>
    cases hg : WorkflowGraph.grade_documents o st with
    | error e => simp [step, hg] at h
    | ok s' =>
      cases hdec : WorkflowGraph.decide_to_generate s' with
      | error e => simp [step, hg, hdec] at h
      | ok d => cases d <;> simp [step, hg, hdec] at h
  | generate =>
    cases hg : WorkflowGraph.generate o gens st with
    | error e => simp [step, hg] at h
    | ok s' =>
      cases hv : WorkflowGraph.grade_generation_v_documents_and_question o gens s' with
      | error e => simp [step, hg, hv] at h
      | ok v =>
        obtain ⟨h1, h2, _, _⟩ := generate_ok hg
        cases v with
        | notSupported => simp [step, hg, hv] at h
        | useful =>
          simp only [step, hg, hv] at h
          cases h
          exact ⟨rfl, h1, h2⟩
        | notUseful => simp [step, hg, hv] at h
        | maxRetries =>
          simp only [step, hg, hv] at h
          cases h
          exact ⟨rfl, h1, h2⟩

theorem int_two_pow_gt (g : Nat) : (g : Int) < 2 ^ g := by
  exact_mod_cast Nat.lt_two_pow g

theorem int_two_pow_pos (g : Nat) : (0 : Int) < 2 ^ g :=
  pow_pos (by norm_num) g

/-- Master invariant lemma for the compiled graph: from any configuration
whose `loop_step` equals `2 ^ gens - 1` and is within the retry budget,
`fuelMeasure` super-steps of fuel are never exhausted, and if `END` is
reached then the number of generation attempts is at most `max_retries + 1`
and `loop_step` records `2 ^ attempts - 1`. -/
theorem run_master (env : Env) (o : Oracle) (mr : Int) :
    ∀ (n : Nat) (c : Config),
      c.s.max_retries = mr →
      c.s.loop_step = 2 ^ c.gens - 1 →
      c.s.loop_step ≤ mr →
      fuelMeasure c ≤ n →
      (∀ c', run env o n c ≠ .ok (.fuelOut c')) ∧
      (∀ s g, run env o n c = .ok (.finished s g) →
        g ≤ mr.toNat + 1 ∧ s.loop_step = 2 ^ g - 1 ∧ s.max_retries = mr) := by
  intro n
  induction n with
  | zero =>
    intro c h1 h2 h3 h4
    exfalso
    have hwpos : 1 ≤ nodeWeight c.node := by cases c.node <;> simp [nodeWeight]
    unfold fuelMeasure at h4
    omega
  | succ n ih =>
    intro c h1 h2 h3 h4
    cases hs : step env o c with
    | error e =>
      refine ⟨fun c'' => ?_, fun s' g' hrun => ?_⟩
      · simp [run, hs]
      · simp [run, hs] at hrun
    | ok r =>
      cases r with
      | next c' =>
        obtain ⟨hmr, hcase⟩ := step_next_spec hs
        have h1' : c'.s.max_retries = mr := hmr.trans h1
        have hnext :
            (∀ c'', run env o n c' ≠ .ok (.fuelOut c'')) ∧
            (∀ s g, run env o n c' = .ok (.finished s g) →
              g ≤ mr.toNat + 1 ∧ s.loop_step = 2 ^ g - 1 ∧ s.max_retries = mr) := by
          rcases hcase with ⟨hl, hg, hw⟩ | ⟨hnode, hl, hg, hb, hw⟩
          · refine ih c' h1' ?_ ?_ ?_
            · rw [hl, hg]; exact h2
            · rw [hl]; exact h3
            · unfold fuelMeasure at h4 ⊢
              rw [hmr, h1, hl]
              rw [h1] at h4
              omega
          · have hpos := int_two_pow_pos c.gens
            have hl0 : 0 ≤ c.s.loop_step := by rw [h2]; omega
            have hb' : 2 * c.s.loop_step + 1 ≤ mr := by
              rw [← hl, ← h1']; exact hb
            refine ih c' h1' ?_ ?_ ?_
            · rw [hl, hg, h2, pow_succ]; ring
            · rw [hl]; exact hb'
            · have hw1 : nodeWeight c.node = 1 := by rw [hnode]; rfl
              unfold fuelMeasure at h4 ⊢
              rw [hmr, h1, hl]
              rw [h1, hw1] at h4
              omega
        refine ⟨fun c'' => ?_, fun s' g' hrun => ?_⟩
        · simp only [run, hs]; exact hnext.1 c''
        · simp only [run, hs] at hrun; exact hnext.2 s' g' hrun
      | done s g =>
        obtain ⟨hgen, hloop, hmr2⟩ := step_done_spec hs
        refine ⟨fun c'' => ?_, fun s' g' hrun => ?_⟩
        · simp [run, hs]
        · simp only [run, hs, Except.ok.injEq, RunRes.finished.injEq] at hrun
          obtain ⟨rfl, rfl⟩ := hrun
          have hpos := int_two_pow_pos c.gens
          have hcast := int_two_pow_gt c.gens
          refine ⟨?_, ?_, hmr2.trans h1⟩
          · omega
          · have hp : (2 : Int) ^ (c.gens + 1) = 2 ^ c.gens * 2 := pow_succ 2 c.gens
            rw [hgen]
            omega

/-- Exactness of the attempt counter: along any run, `loop_step` is
`2 ^ gens - 1`, so `END` reports `loop_step = 2 ^ attempts - 1`. -/
theorem run_loop_exact (env : Env) (o : Oracle) :
    ∀ (n : Nat) (c : Config), c.s.loop_step = 2 ^ c.gens - 1 →
      ∀ s g, run env o n c = .ok (.finished s g) → s.loop_step = 2 ^ g - 1 := by
  intro n
  induction n with
  | zero => intro c h s g hrun; simp [run] at hrun
  | succ n ih =>
    intro c h s g hrun
    cases hs : step env o c with
    | error e => simp [run, hs] at hrun
    | ok r =>
      cases r with
      | next c' =>
        simp only [run, hs] at hrun
        obtain ⟨hmr, hcase⟩ := step_next_spec hs
        rcases hcase with ⟨hl, hg, _⟩ | ⟨_, hl, hg, _, _⟩
        · exact ih c' (by rw [hl, hg]; exact h) s g hrun
        · refine ih c' ?_ s g hrun
          rw [hl, hg, h, pow_succ]; ring
      | done s0 g0 =>
        simp only [run, hs, Except.ok.injEq, RunRes.finished.injEq] at hrun
        obtain ⟨rfl, rfl⟩ := hrun
        obtain ⟨hg, hloop, _⟩ := step_done_spec hs
        rw [hg, hloop, h, pow_succ]; ring

/-- **C1.** For every question and every `maxRetries ≥ 0`, `execute`
terminates: whatever the model / gateway responses, a fuel budget of
`2 * (maxRetries + 1) + 5` super-steps is never exhausted (the machine
reaches `END` or raises within it), and whenever `END` is reached the
`generate` node was invoked at most `maxRetries + 1` times, because the
retry edges are guarded by `loop_step <= max_retries` and every attempt
strictly increases `loop_step`. -/
theorem execute_terminates_within_retry_budget (env : Env) (o : Oracle)
    (question : String) (max_retries : Int) (h : 0 ≤ max_retries) :
    (∀ c, run env o (2 * (max_retries.toNat + 1) + 5) (initConfig question max_retries) ≠
      .ok (.fuelOut c)) ∧
    (∀ s g, run env o (2 * (max_retries.toNat + 1) + 5) (initConfig question max_retries) =
      .ok (.finished s g) → g ≤ max_retries.toNat + 1) := by
  have hmeas : fuelMeasure (initConfig question max_retries) =
      2 * (max_retries + 1).toNat + 5 := by
    simp [fuelMeasure, initConfig, nodeWeight]
  have hm := run_master env o max_retries (2 * (max_retries.toNat + 1) + 5)
    (initConfig question max_retries) rfl rfl h (by rw [hmeas]; omega)
  exact ⟨hm.1, fun s g hr => (hm.2 s g hr).1⟩

/-- Witness for `execute_terminates_within_retry_budget` with retry budget
2 and the contract-conforming oracle. -/
theorem execute_terminates_within_retry_budget_witness :
    (0 ≤ (2 : Int)) ∧
    ((∀ c, run envA oracleA (2 * ((2 : Int).toNat + 1) + 5) (initConfig "q" 2) ≠
      .ok (.fuelOut c)) ∧
     (∀ s g, run envA oracleA (2 * ((2 : Int).toNat + 1) + 5) (initConfig "q" 2) =
      .ok (.finished s g) → g ≤ (2 : Int).toNat + 1)) :=
  ⟨by norm_num, execute_terminates_within_retry_budget envA oracleA "q" 2 (by norm_num)⟩

/-- **C2 (counterexample).** A concrete complete run (vector-store route, no
documents, contract-conforming graders, `max_retries = 1`) performs exactly
two generation attempts yet terminates with `loop_step = 3`, not `2`: the
claim that every `generate` execution increases `loop_step` by exactly 1,
making `loop_step = k` after `k` attempts, fails on the code. -/
theorem loop_step_increment_counterexample :
    run envA oracleA 9 (initConfig "q" 1) = .ok (.finished twoAttemptFinal 2) ∧
    twoAttemptFinal.loop_step = 3 ∧ ((3 : Int) ≠ 2) :=
  ⟨rfl, rfl, by norm_num⟩

/-- **C2 (amended).** Only the `generate` node writes `loop_step`, and it
never decreases; but since the node returns `loop_step + 1` into a channel
with the `operator.add` reducer, each attempt takes `loop_step` from `l` to
`2 * l + 1`, so after `k` generation attempts `loop_step = 2 ^ k - 1`
(not `k`). -/
theorem loop_step_doubles_plus_one :
    (∀ (o : Oracle) (g : Nat) (s s' : GraphState),
      WorkflowGraph.generate o g s = .ok s' → s'.loop_step = 2 * s.loop_step + 1) ∧
    (∀ (o : Oracle) (s : GraphState), (WorkflowGraph.retrieve o s).loop_step = s.loop_step) ∧
    (∀ (t : Bool) (o : Oracle) (w : Nat) (s s' : GraphState),
      WorkflowGraph.web_search t o w s = .ok s' → s'.loop_step = s.loop_step) ∧
    (∀ (o : Oracle) (s s' : GraphState),
      WorkflowGraph.grade_documents o s = .ok s' → s'.loop_step = s.loop_step) ∧
    (∀ (env : Env) (o : Oracle) (n : Nat) (q : String) (mr : Int) (s : GraphState) (g : Nat),
      run env o n (initConfig q mr) = .ok (.finished s g) → s.loop_step = 2 ^ g - 1) :=
  ⟨fun _ _ _ _ h => (generate_ok h).1,
   fun _ _ => rfl,
   fun _ _ _ _ _ h => (web_search_ok h).1,
   fun _ _ _ h => (grade_documents_ok h).1,
   fun env o n q mr s g h => run_loop_exact env o n (initConfig q mr) rfl s g h⟩

/-- Witness for `loop_step_doubles_plus_one`: one attempt takes `loop_step`
from 0 to 1 and the concrete two-attempt run ends at `2 ^ 2 - 1 = 3`. -/
theorem loop_step_doubles_plus_one_witness :
    stateA'.loop_step = 2 * stateA.loop_step + 1 ∧
    twoAttemptFinal.loop_step = 2 ^ 2 - 1 :=
  ⟨loop_step_doubles_plus_one.1 oracleA 0 stateA stateA' rfl,
   loop_step_doubles_plus_one.2.2.2.2 envA oracleA 9 "q" 1 twoAttemptFinal 2 rfl⟩

/-- **C3 (code bug).** With both graders answering `binary_score = "yes"`
(`oracleA`) and the retry budget open (`loop_step = 1 ≤ max_retries = 3`),
the `GENERATE` edge returns `"not supported"` — a further generation attempt
— instead of `"useful"`: the source compares the hallucination grader's
whole response dict with `"yes"` (`grade == "yes"`, missing the
`["binary_score"]` extraction its sibling graders use), which is always
false in Python, so the groundedness-passed branch is unreachable. -/
theorem yes_yes_grading_returns_not_supported :
    WorkflowGraph.grade_generation_v_documents_and_question oracleA 0 genStateC3 =
      .ok .notSupported ∧
    ((Except.ok WorkflowGraph.GenVerdict.notSupported :
        Except PyErr WorkflowGraph.GenVerdict) ≠ .ok .useful) :=
  ⟨rfl, by simp⟩

/-- **C4 (counterexample).** With the router answering
`datasource = "database"`, `route_question` returns `None` — no branch at
all — and the entry step raises langgraph's unknown-branch error instead of
failing closed to `websearch`. -/
theorem route_fail_closed_counterexample :
    WorkflowGraph.route_question oracleBadRoute envA.storeContents (initConfig "q" 0).s =
      .ok none ∧
    step envA oracleBadRoute (initConfig "q" 0) = .error .invalidBranch ∧
    ((Except.ok (none : Option WorkflowGraph.RouteDest) :
        Except PyErr (Option WorkflowGraph.RouteDest)) ≠ .ok (some .websearch)) :=
  ⟨rfl, rfl, by simp⟩

/-- **C4 (amended).** For every router verdict outside
`{"websearch", "vectorstore"}`, `route_question` falls off the end and
returns `None`, and the conditional entry point therefore raises an
undefined-branch error; the route step does not fail closed to
`websearch`. -/
theorem route_unrecognized_returns_none (o : Oracle) (env : Env) (c : Config)
    (tp d : String)
    (hnode : c.node = .entry)
    (htp : EmbeddingInterface.get_store_topics env.storeContents = .ok tp)
    (hresp : o.routeResp c.s.question tp = .obj [("datasource", .str d)])
    (hws : d ≠ "websearch") (hvs : d ≠ "vectorstore") :
    WorkflowGraph.route_question o env.storeContents c.s = .ok none ∧
    step env o c = .error .invalidBranch := by
  have hroute : WorkflowGraph.route_question o env.storeContents c.s = .ok none := by
    simp [WorkflowGraph.route_question, htp, hresp, PyVal.subscript, PyVal.eqStr,
      List.lookup, hws, hvs]
  refine ⟨hroute, ?_⟩
  obtain ⟨node, s, gens, webs⟩ := c
  simp only at hnode
  subst hnode
  simp [step, hroute]

/-- Witness for `route_unrecognized_returns_none` with the verdict
`"database"`. -/
theorem route_unrecognized_returns_none_witness :
    WorkflowGraph.route_question oracleBadRoute [("s", "t")] (initConfig "q2" 0).s =
      .ok none ∧
    step ⟨true, [("s", "t")]⟩ oracleBadRoute (initConfig "q2" 0) = .error .invalidBranch :=
  route_unrecognized_returns_none oracleBadRoute ⟨true, [("s", "t")]⟩ (initConfig "q2" 0)
    "t" "database" rfl rfl rfl (by decide) (by decide)

/-- Characterization of the `grade_documents` loop: whenever every grader
response carries a string `binary_score` (of any value), the loop raises no
error, keeps exactly the documents whose grade lowers to `"yes"` in their
original order, and reports `"Yes"` exactly when some document was not
accepted. -/
theorem gradeLoop_spec (o : Oracle) (q : String) :
    ∀ docs : List Document,
      (∀ d ∈ docs, ∃ b, relevance_grade o q d = .ok b) →
      WorkflowGraph.gradeLoop o q docs =
        .ok (docs.filter (acceptsDoc o q),
             if docs.all (acceptsDoc o q) then "No" else "Yes") := by
  intro docs
  induction docs with
  | nil => intro _; simp [WorkflowGraph.gradeLoop]
  | cons d ds ih =>
    intro h
    obtain ⟨b, hb⟩ := h d (List.mem_cons_self d ds)
    cases hsub : (o.retrievalResp q d.page_content).subscript "binary_score" with
    | error e => simp [relevance_grade, hsub] at hb
    | ok g =>
      cases hlow : g.lower with
      | error e => simp [relevance_grade, hsub, hlow] at hb
      | ok gl =>
        have hacc : acceptsDoc o q d = (gl == "yes") := by
          simp [acceptsDoc, relevance_grade, hsub, hlow]
        have hrest := ih (fun d' hd' => h d' (List.mem_cons_of_mem _ hd'))
        simp only [WorkflowGraph.gradeLoop, hsub, hlow, except_bind_ok, hrest]
        cases hyes : (gl == "yes") with
        | true => simp [List.filter_cons, List.all_cons, hacc, hyes]
        | false => simp [List.filter_cons, List.all_cons, hacc, hyes]

/-- **C5 (counterexample).** A document graded `binary_score = "maybe"` —
outside the expected `{"yes","no"}` enumeration — is silently filtered out
with the web-search flag raised; no error is surfaced. -/
theorem malformed_grade_counterexample :
    WorkflowGraph.gradeLoop oracleMaybe "q" [docA] = .ok ([], "Yes") ∧
    (∀ e : PyErr, WorkflowGraph.gradeLoop oracleMaybe "q" [docA] ≠ .error e) :=
  ⟨rfl, fun e he => by
    rw [show WorkflowGraph.gradeLoop oracleMaybe "q" [docA] = .ok ([], "Yes") from rfl] at he
    exact Except.noConfusion he⟩

/-- **C5 (amended).** The engine does not surface malformed-judgment errors
for scores outside the expected enumeration: whenever every grader response
carries a string `binary_score`, `grade_documents`'s loop succeeds, silently
treating any grade other than `"yes"` — `"maybe"` as much as `"no"` — as a
rejection. -/
theorem out_of_enum_grade_rejected_silently (o : Oracle) (q : String)
    (docs : List Document)
    (h : ∀ d ∈ docs, ∃ b, relevance_grade o q d = .ok b) :
    (∀ e : PyErr, WorkflowGraph.gradeLoop o q docs ≠ .error e) ∧
    WorkflowGraph.gradeLoop o q docs =
      .ok (docs.filter (acceptsDoc o q),
           if docs.all (acceptsDoc o q) then "No" else "Yes") := by
  have hs := gradeLoop_spec o q docs h
  exact ⟨fun e he => by rw [hs] at he; exact Except.noConfusion he, hs⟩

/-- Witness for `out_of_enum_grade_rejected_silently` at the
`"maybe"`-grading oracle. -/
theorem out_of_enum_grade_rejected_silently_witness :
    (∀ e : PyErr, WorkflowGraph.gradeLoop oracleMaybe "q2" [docA] ≠ .error e) ∧
    WorkflowGraph.gradeLoop oracleMaybe "q2" [docA] =
      .ok ([docA].filter (acceptsDoc oracleMaybe "q2"),
           if [docA].all (acceptsDoc oracleMaybe "q2") then "No" else "Yes") :=
  out_of_enum_grade_rejected_silently oracleMaybe "q2" [docA]
    (fun d hd => ⟨"maybe", by rw [List.mem_singleton] at hd; subst hd; rfl⟩)

/-- **C6 (code bug).** When `TAVILY_API_KEY` is absent, `__init__` never
assigns `self.web_search_tool` (the class-level annotation creates no
attribute), so the web-search step raises `AttributeError` instead of
returning the documents unchanged; when the tool is configured, the step
appends the normalized web documents to the accumulated list, never
replacing it. -/
theorem web_search_unconfigured_raises (o : Oracle) (w : Nat) (s : GraphState) :
    WorkflowGraph.web_search false o w s = .error .attributeError ∧
    WorkflowGraph.web_search true o w s = .ok (webSearchResult o w s) :=
  ⟨rfl, rfl⟩

/-- **C7.** For every document list and every assignment of relevance grades
in `{"yes","no"}`: the loop returns exactly the in-order subsequence of
documents graded `"yes"` (a sublist of the input — survivors are never
reordered), the web-search flag is `"Yes"` iff some document was graded
`"no"`, and re-grading the filtered all-`"yes"` list returns it unchanged
with the flag `"No"` (idempotence). -/
theorem grade_documents_filter_order_idempotent (o : Oracle) (q : String)
    (docs : List Document)
    (h : ∀ d ∈ docs, relevance_grade o q d = .ok "yes" ∨ relevance_grade o q d = .ok "no") :
    (WorkflowGraph.gradeLoop o q docs =
      .ok (docs.filter (acceptsDoc o q),
           if docs.all (acceptsDoc o q) then "No" else "Yes")) ∧
    (docs.filter (acceptsDoc o q)).Sublist docs ∧
    ((docs.all (acceptsDoc o q) = false) ↔
      ∃ d ∈ docs, relevance_grade o q d = .ok "no") ∧
    WorkflowGraph.gradeLoop o q (docs.filter (acceptsDoc o q)) =
      .ok (docs.filter (acceptsDoc o q), "No") := by
  have hex : ∀ d ∈ docs, ∃ b, relevance_grade o q d = .ok b := fun d hd =>
    (h d hd).elim (fun h1 => ⟨_, h1⟩) (fun h1 => ⟨_, h1⟩)
  refine ⟨gradeLoop_spec o q docs hex, List.filter_sublist docs, ?_, ?_⟩
  · constructor
    · intro hall
      obtain ⟨d, hd, hpd⟩ := List.all_eq_false.mp hall
      refine ⟨d, hd, ?_⟩
      rcases h d hd with hy | hn
      · exact absurd (by simp [acceptsDoc, hy]) hpd
      · exact hn
    · rintro ⟨d, hd, hn⟩
      exact List.all_eq_false.mpr ⟨d, hd, by simp [acceptsDoc, hn]⟩
  · have hexf : ∀ d ∈ docs.filter (acceptsDoc o q), ∃ b, relevance_grade o q d = .ok b :=
      fun d hd => hex d (List.mem_of_mem_filter hd)
    rw [gradeLoop_spec o q _ hexf]
    have hall : (docs.filter (acceptsDoc o q)).all (acceptsDoc o q) = true :=
      List.all_eq_true.mpr fun d hd => List.of_mem_filter hd
    have hff : (docs.filter (acceptsDoc o q)).filter (acceptsDoc o q) =
        docs.filter (acceptsDoc o q) :=
      List.filter_eq_self.mpr fun d hd => List.of_mem_filter hd
    rw [hall, hff]
    simp

/-- Witness for `grade_documents_filter_order_idempotent` on a one-document
list graded `"yes"`. -/
theorem grade_documents_filter_order_idempotent_witness :
    (WorkflowGraph.gradeLoop oracleA "q3" [docA] =
      .ok ([docA].filter (acceptsDoc oracleA "q3"),
           if [docA].all (acceptsDoc oracleA "q3") then "No" else "Yes")) ∧
    ([docA].filter (acceptsDoc oracleA "q3")).Sublist [docA] ∧
    (([docA].all (acceptsDoc oracleA "q3") = false) ↔
      ∃ d ∈ [docA], relevance_grade oracleA "q3" d = .ok "no") ∧
    WorkflowGraph.gradeLoop oracleA "q3" ([docA].filter (acceptsDoc oracleA "q3")) =
      .ok ([docA].filter (acceptsDoc oracleA "q3"), "No") :=
  grade_documents_filter_order_idempotent oracleA "q3" [docA]
    (fun d hd => .inl (by rw [List.mem_singleton] at hd; subst hd; rfl))

/-- **C8.** Zero-document input is tolerated: `grade_documents` succeeds on
an empty document list, producing an empty filtered set with the web-search
flag `"No"`, and `decide_to_generate` then routes straight to `generate`. -/
theorem zero_documents_routes_to_generate (o : Oracle) (s : GraphState)
    (h : s.documents = some []) :
    WorkflowGraph.grade_documents o s =
      .ok { s with documents := some [], web_search := some "No" } ∧
    WorkflowGraph.decide_to_generate
      { s with documents := some [], web_search := some "No" } = .ok .generate := by
  refine ⟨?_, rfl⟩
  simp [WorkflowGraph.grade_documents, stateGet, h, WorkflowGraph.gradeLoop]

/-- Witness for `zero_documents_routes_to_generate` at a concrete state with
an empty retrieved set. -/
theorem zero_documents_routes_to_generate_witness :
    WorkflowGraph.grade_documents oracleA stateA =
      .ok { stateA with documents := some [], web_search := some "No" } ∧
    WorkflowGraph.decide_to_generate
      { stateA with documents := some [], web_search := some "No" } = .ok .generate :=
  zero_documents_routes_to_generate oracleA stateA rfl

/-- **C9 (counterexample).** A terminal run whose only document came from
the web search: its `origin` metadata is the literal `"web search"`, which
is neither `"vector-store"` nor `"web-search"`, so the claimed provenance
enumeration fails on the code. -/
theorem origin_tag_counterexample :
    run ⟨true, [("src", "topicA")]⟩ oracleWeb 9 (initConfig "q" 0) =
      .ok (.finished webRunFinal 1) ∧
    (webRunFinal.documents.getD []).map (fun d => List.lookup "origin" d.metadata) =
      [some "web search"] ∧
    ("web search" ≠ "web-search" ∧ "web search" ≠ "vector-store") :=
  ⟨rfl, rfl, by decide, by decide⟩

/-- **C9 (amended).** The web-search node tags every document it adds with
`origin = "web search"` (with a space) while leaving the already-accumulated
documents untouched, and the retrieve node stores the vector-store hits
exactly as the gateway returns them, adding no origin tag of its own. -/
theorem origin_tags_as_implemented (o : Oracle) (w : Nat) (s : GraphState) :
    WorkflowGraph.web_search true o w s = .ok (webSearchResult o w s) ∧
    (∀ wr : WebResult, List.lookup "origin" (webDocOf wr).metadata = some "web search") ∧
    (WorkflowGraph.retrieve o s).documents = some (o.retrieved s.question) :=
  ⟨rfl, fun _ => rfl, rfl⟩

/-- **C10.** On an empty store `get_store_topics` evaluates `topics[0]` on
an empty topic list and raises `IndexError`; since `route_question`
recomputes the topic summary on every call, the entry step of every run
against an empty store raises during routing, before any branch is taken. -/
theorem empty_store_raises_on_routing (env : Env) (o : Oracle) (c : Config)
    (hnode : c.node = .entry) (hempty : env.storeContents = []) :
    EmbeddingInterface.get_store_topics env.storeContents = .error .indexError ∧
    WorkflowGraph.route_question o env.storeContents c.s = .error .indexError ∧
    step env o c = .error .indexError := by
  have h1 : EmbeddingInterface.get_store_topics env.storeContents = .error .indexError := by
    rw [hempty]; rfl
  have h2 : WorkflowGraph.route_question o env.storeContents c.s = .error .indexError := by
    simp [WorkflowGraph.route_question, h1]
  refine ⟨h1, h2, ?_⟩
  obtain ⟨node, s, gens, webs⟩ := c
  simp only at hnode
  subst hnode
  simp [step, h2]

/-- Witness for `empty_store_raises_on_routing`: a fresh run against an
empty store. -/
theorem empty_store_raises_on_routing_witness :
    EmbeddingInterface.get_store_topics (Env.storeContents ⟨true, []⟩) =
      .error .indexError ∧
    WorkflowGraph.route_question oracleA (Env.storeContents ⟨true, []⟩)
      (initConfig "q" 0).s = .error .indexError ∧
    step ⟨true, []⟩ oracleA (initConfig "q" 0) = .error .indexError :=
  empty_store_raises_on_routing ⟨true, []⟩ oracleA (initConfig "q" 0) rfl rfl

end LocalRAG
